import Mathlib

set_option maxRecDepth 8192

/-!
Verification development for the POAssistant backend
(`src/story-4d-backend/app.py`, Flask + Gemini, and
`src/story-4d-backend/internal.py`, FastAPI + an OpenAI-compatible internal
endpoint).

Python strings are modelled as `List Char` (`PyStr`).  JSON values produced by
`json.loads` are modelled by `JsonValue`; the parser `json_loads` below is a
translation of CPython's pure-Python `json` scanner (`json/decoder.py` and
`json/scanner.py`), including its error messages and error positions, so that
`str(JSONDecodeError)` can be reproduced faithfully.  Network effects are
modelled by oracles: a function from the request value the code builds to the
outcome the library call would produce.
-/

/-- Python strings, modelled as lists of characters. -/
abbrev PyStr := List Char

/-- Coerce a Lean string literal to a modelled Python string. -/
def pys (s : String) : PyStr := s.toList

/-! ## Python `str` helpers -/

/-- Whitespace stripped by Python's `str.strip()` (ASCII part: `\t\n\v\f\r` and
space; unicode whitespace never appears in the modelled data). -/
def isPySpace (c : Char) : Bool :=
  c = ' ' ∨ c = '\t' ∨ c = '\n' ∨ c = '\x0b' ∨ c = '\x0c' ∨ c = '\r'

/-- Python `str.strip()` (with no argument). -/
def pyStrip (s : PyStr) : PyStr :=
  ((s.dropWhile isPySpace).reverse.dropWhile isPySpace).reverse

/-- Python `str.startswith(prefix)`. -/
def pyStartswith (s pre : PyStr) : Bool := pre.isPrefixOf s

/-- One left-to-right scan of Python `str.replace(old, new)` for non-empty
`old`: at each position, if `old` matches, emit `new` and continue after the
match, otherwise keep the character.  `fuel` only serves termination; `fuel ≥
s.length` always suffices because every step consumes at least one character. -/
def replaceLoop (old new : PyStr) : Nat → PyStr → PyStr
  | 0, s => s
  | _+1, [] => []
  | fuel+1, c :: t =>
    if old.isPrefixOf (c :: t) then new ++ replaceLoop old new fuel ((c :: t).drop old.length)
    else c :: replaceLoop old new fuel t

/-- Python `str.replace(old, new)` (all occurrences, left to right,
non-overlapping).  For empty `old`, Python inserts `new` around every
character. -/
def pyReplace (s old new : PyStr) : PyStr :=
  match old with
  | [] => new ++ s.foldr (fun c acc => c :: (new ++ acc)) []
  | _ => replaceLoop old new s.length s

/-- Python `needle in hay` for strings (substring containment). -/
def pyContainsSub (hay needle : PyStr) : Bool :=
  (List.range (hay.length + 1)).any (fun i => needle.isPrefixOf (hay.drop i))

/-- Decimal rendering of a natural number (Python `str(n)` for `n ≥ 0`). -/
def natDec (n : Nat) : PyStr := (toString n).toList

/-! ## JSON values (`json.loads` results) -/

/-- The result of Python's `json.loads`: `null`/bool/int/float/str/list/dict.
Floats are kept as their source lexeme (no claim depends on float values).
Dicts are association lists in insertion order with duplicate keys already
collapsed (later value wins, first position kept), as Python's `dict` does. -/
inductive JsonValue where
  | null
  | bool (b : Bool)
  | int (n : Int)
  | float (raw : PyStr)
  | str (s : PyStr)
  | arr (elems : List JsonValue)
  | obj (pairs : List (PyStr × JsonValue))

/-- Insert a key/value into an association list the way Python `dict` item
assignment does: overwrite in place if present, append otherwise. -/
def updAssoc : List (PyStr × JsonValue) → PyStr → JsonValue → List (PyStr × JsonValue)
  | [], k, v => [(k, v)]
  | (k', v') :: t, k, v => if k' = k then (k', v) :: t else (k', v') :: updAssoc t k v

/-- Build a Python `dict` from parsed key/value pairs (duplicates collapse). -/
def mkDict (ps : List (PyStr × JsonValue)) : List (PyStr × JsonValue) :=
  ps.foldl (fun acc p => updAssoc acc p.1 p.2) []

/-- Lookup in a (collapsed) dict. -/
def dictLookup (kvs : List (PyStr × JsonValue)) (k : PyStr) : Option JsonValue :=
  (kvs.find? (fun p => p.1 = k)).map (·.2)

/-! ## The `json.loads` scanner -/

/-- A `json.JSONDecodeError`: message and absolute character position.
Line/column are derived from the document when the exception is rendered. -/
structure JsonErr where
  msg : String
  pos : Nat

/-- JSON whitespace skipped by the scanner (`' \t\n\r'`). -/
def isJsonWs (c : Char) : Bool := c = ' ' ∨ c = '\t' ∨ c = '\n' ∨ c = '\r'

/-- Skip JSON whitespace, tracking the absolute position. -/
def skipWs : PyStr → Nat → PyStr × Nat
  | [], p => ([], p)
  | c :: t, p => if isJsonWs c then skipWs t (p + 1) else (c :: t, p)

def digitVal (c : Char) : Nat := c.toNat - '0'.toNat

def natOfDigits (ds : PyStr) : Nat := ds.foldl (fun a c => 10 * a + digitVal c) 0

def hexVal (c : Char) : Option Nat :=
  if '0' ≤ c ∧ c ≤ '9' then some (c.toNat - '0'.toNat)
  else if 'a' ≤ c ∧ c ≤ 'f' then some (c.toNat - 'a'.toNat + 10)
  else if 'A' ≤ c ∧ c ≤ 'F' then some (c.toNat - 'A'.toNat + 10)
  else none

/-- A `\uXXXX` code unit: decode four hex digits (CPython also rejects a
second digit `x`/`X`, which `hexVal` rejects anyway). -/
def hex4 (h1 h2 h3 h4 : Char) : Option Nat :=
  match hexVal h1, hexVal h2, hexVal h3, hexVal h4 with
  | some a, some b, some c, some d => some (((a * 16 + b) * 16 + c) * 16 + d)
  | _, _, _, _ => none

/-- A code point as a Lean `Char`; a lone surrogate is not representable as a
unicode scalar value, so it is modelled as U+FFFD (no modelled input contains
lone surrogates). -/
def charOfCode (n : Nat) : Char :=
  if n.isValidChar then Char.ofNat n else '�'

/-- CPython `py_scanstring` (strict mode): scan a string body after the
opening quote.  `begin_` is the index of the opening quote (used by the
`Unterminated string` error); `pos` is the index of the next character.
`fuel` only serves termination (structural recursion); every step consumes at
least one character, so the `s.length + 1` the callers pass never runs out.
The `repr`-of-the-offending-item suffixes CPython embeds in the
`Invalid control character`/`Invalid \escape` messages are omitted (no claim
evaluates them). -/
def parseStringLoop (begin_ : Nat) : Nat → PyStr → PyStr → Nat → Except JsonErr (PyStr × PyStr × Nat)
  | 0, _, _, _ => .error ⟨"Unterminated string starting at", begin_⟩
  | _+1, _, [], _ => .error ⟨"Unterminated string starting at", begin_⟩
  | _+1, acc, '"' :: t, pos => .ok (acc.reverse, t, pos + 1)
  | fuel+1, acc, '\\' :: 'u' :: h1 :: h2 :: h3 :: h4 :: '\\' :: 'u' :: g1 :: g2 :: g3 :: g4 :: t5, pos =>
    match hex4 h1 h2 h3 h4 with
    | none => .error ⟨"Invalid \\uXXXX escape", pos + 1⟩
    | some n1 =>
      if 0xD800 ≤ n1 ∧ n1 ≤ 0xDBFF then
        match hex4 g1 g2 g3 g4 with
        | none => .error ⟨"Invalid \\uXXXX escape", pos + 7⟩
        | some n2 =>
          if 0xDC00 ≤ n2 ∧ n2 ≤ 0xDFFF then
            parseStringLoop begin_ fuel
              (charOfCode (0x10000 + (n1 - 0xD800) * 0x400 + (n2 - 0xDC00)) :: acc) t5 (pos + 12)
          else
            parseStringLoop begin_ fuel (charOfCode n1 :: acc)
              ('\\' :: 'u' :: g1 :: g2 :: g3 :: g4 :: t5) (pos + 6)
      else
        parseStringLoop begin_ fuel (charOfCode n1 :: acc)
          ('\\' :: 'u' :: g1 :: g2 :: g3 :: g4 :: t5) (pos + 6)
  | fuel+1, acc, '\\' :: 'u' :: h1 :: h2 :: h3 :: h4 :: t3, pos =>
    match hex4 h1 h2 h3 h4 with
    | none => .error ⟨"Invalid \\uXXXX escape", pos + 1⟩
    | some n1 =>
      if 0xD800 ≤ n1 ∧ n1 ≤ 0xDBFF then
        if pyStartswith t3 ['\\', 'u'] then
          -- a second `\u` follows but fewer than four characters remain
          -- (the previous equation did not match): CPython still attempts
          -- the second decode and fails
          .error ⟨"Invalid \\uXXXX escape", pos + 7⟩
        else parseStringLoop begin_ fuel (charOfCode n1 :: acc) t3 (pos + 6)
      else parseStringLoop begin_ fuel (charOfCode n1 :: acc) t3 (pos + 6)
  | _+1, _, '\\' :: 'u' :: _, pos => .error ⟨"Invalid \\uXXXX escape", pos + 1⟩
  | fuel+1, acc, '\\' :: e :: t2, pos =>
    let esc : Option Char :=
      if e = '"' then some '"'
      else if e = '\\' then some '\\'
      else if e = '/' then some '/'
      else if e = 'b' then some '\x08'
      else if e = 'f' then some '\x0c'
      else if e = 'n' then some '\n'
      else if e = 'r' then some '\r'
      else if e = 't' then some '\t'
      else none
    match esc with
    | some ch => parseStringLoop begin_ fuel (ch :: acc) t2 (pos + 2)
    | none => .error ⟨"Invalid \\escape", pos + 1⟩
  | _+1, _, ['\\'], _ => .error ⟨"Unterminated string starting at", begin_⟩
  | fuel+1, acc, c :: t, pos =>
    if c.toNat < 0x20 then .error ⟨"Invalid control character at", pos⟩
    else parseStringLoop begin_ fuel (c :: acc) t (pos + 1)
termination_by structural fuel _ _ _ => fuel

/-- CPython `NUMBER_RE` (`-?(0|[1-9]\d*)(\.\d+)?([eE][+-]?\d+)?`) matched at
the head of `s`; integral lexemes become Python `int`s, others `float`s. -/
def parseNumber (s : PyStr) (pos : Nat) : Option (JsonValue × PyStr × Nat) :=
  let signAndRest : PyStr × PyStr :=
    match s with
    | '-' :: t => (['-'], t)
    | _ => ([], s)
  let sign := signAndRest.1
  let s1 := signAndRest.2
  let ipart : Option (PyStr × PyStr) :=
    match s1 with
    | '0' :: t => some (['0'], t)
    | c :: t =>
      if c.isDigit ∧ c ≠ '0' then
        some (c :: t.takeWhile Char.isDigit, t.dropWhile Char.isDigit)
      else none
    | [] => none
  match ipart with
  | none => none
  | some (ds, s2) =>
    let fracAndRest : PyStr × PyStr :=
      match s2 with
      | '.' :: t =>
        let fd := t.takeWhile Char.isDigit
        if fd = [] then ([], s2) else ('.' :: fd, t.dropWhile Char.isDigit)
      | _ => ([], s2)
    let frac := fracAndRest.1
    let s3 := fracAndRest.2
    let expAndRest : PyStr × PyStr :=
      match s3 with
      | e :: t =>
        if e = 'e' ∨ e = 'E' then
          let sgnAndRest : PyStr × PyStr :=
            match t with
            | '+' :: u => (['+'], u)
            | '-' :: u => (['-'], u)
            | _ => ([], t)
          let ed := sgnAndRest.2.takeWhile Char.isDigit
          if ed = [] then ([], s3)
          else (e :: sgnAndRest.1 ++ ed, sgnAndRest.2.dropWhile Char.isDigit)
        else ([], s3)
      | [] => ([], s3)
    let expo := expAndRest.1
    let s4 := expAndRest.2
    let raw := sign ++ ds ++ frac ++ expo
    let v : JsonValue :=
      if frac = [] ∧ expo = [] then
        .int (if sign = [] then (natOfDigits ds : Int) else -(natOfDigits ds : Int))
      else .float raw
    some (v, s4, pos + raw.length)

mutual

/-- CPython `scan_once`: parse one JSON value at the head of `s` (absolute
position `pos`).  `fuel` only serves termination of the mutual recursion;
`json_loads` passes `doc.length + 1`, which always suffices because every
recursive call consumes at least one character first. -/
def parseValue : Nat → PyStr → Nat → Except JsonErr (JsonValue × PyStr × Nat)
  | 0, _, pos => .error ⟨"Expecting value", pos⟩
  | fuel+1, s, pos =>
    match s with
    | [] => .error ⟨"Expecting value", pos⟩
    | '"' :: t => (parseStringLoop pos (t.length + 1) [] t (pos + 1)).map (fun r => (.str r.1, r.2.1, r.2.2))
    | '\x7b' :: t =>
      -- JSONObject: optional whitespace, then `}` (empty) or the first key.
      let r1 := skipWs t (pos + 1)
      match r1.1 with
      | '\x7d' :: t2 => .ok (.obj [], t2, r1.2 + 1)
      | '"' :: t2 => parseMembers fuel t2 (r1.2 + 1) r1.2 []
      | _ => .error ⟨"Expecting property name enclosed in double quotes", r1.2⟩
    | '[' :: t =>
      -- JSONArray: optional whitespace, then `]` (empty) or the first element.
      let r1 := skipWs t (pos + 1)
      match r1.1 with
      | ']' :: t2 => .ok (.arr [], t2, r1.2 + 1)
      | _ => parseElems fuel r1.1 r1.2 []
    | _ :: _ =>
      if pyStartswith s (pys "null") then .ok (.null, s.drop 4, pos + 4)
      else if pyStartswith s (pys "true") then .ok (.bool true, s.drop 4, pos + 4)
      else if pyStartswith s (pys "false") then .ok (.bool false, s.drop 5, pos + 5)
      else
        match parseNumber s pos with
        | some r => .ok r
        | none =>
          if pyStartswith s (pys "NaN") then .ok (.float (pys "NaN"), s.drop 3, pos + 3)
          else if pyStartswith s (pys "Infinity") then .ok (.float (pys "Infinity"), s.drop 8, pos + 8)
          else if pyStartswith s (pys "-Infinity") then .ok (.float (pys "-Infinity"), s.drop 9, pos + 9)
          else .error ⟨"Expecting value", pos⟩
termination_by structural fuel _ _ => fuel

/-- CPython `JSONObject` member loop: entered just after the opening quote of
a key (at absolute position `pos`; `beginq` is the index of that quote). -/
def parseMembers : Nat → PyStr → Nat → Nat → List (PyStr × JsonValue) →
    Except JsonErr (JsonValue × PyStr × Nat)
  | 0, _, pos, _, _ => .error ⟨"Expecting value", pos⟩
  | fuel+1, s, pos, beginq, acc =>
    match parseStringLoop beginq (s.length + 1) [] s pos with
    | .error e => .error e
    | .ok (key, r2, p2) =>
      let r3 := skipWs r2 p2
      match r3.1 with
      | ':' :: t =>
        let r4 := skipWs t (r3.2 + 1)
        match parseValue fuel r4.1 r4.2 with
        | .error e => .error e
        | .ok (v, r5, p5) =>
          let acc2 := acc ++ [(key, v)]
          let r6 := skipWs r5 p5
          match r6.1 with
          | '\x7d' :: t2 => .ok (.obj (mkDict acc2), t2, r6.2 + 1)
          | ',' :: t2 =>
            let r7 := skipWs t2 (r6.2 + 1)
            match r7.1 with
            | '"' :: t3 => parseMembers fuel t3 (r7.2 + 1) r7.2 acc2
            | _ => .error ⟨"Expecting property name enclosed in double quotes", r7.2⟩
          | _ => .error ⟨"Expecting \x27,\x27 delimiter", r6.2⟩
      | _ => .error ⟨"Expecting \x27:\x27 delimiter", r3.2⟩
termination_by structural fuel _ _ _ _ => fuel

/-- CPython `JSONArray` element loop: entered at the first character of an
element (whitespace already skipped). -/
def parseElems : Nat → PyStr → Nat → List JsonValue →
    Except JsonErr (JsonValue × PyStr × Nat)
  | 0, _, pos, _ => .error ⟨"Expecting value", pos⟩
  | fuel+1, s, pos, acc =>
    match parseValue fuel s pos with
    | .error e => .error e
    | .ok (v, r2, p2) =>
      let acc2 := acc ++ [v]
      let r3 := skipWs r2 p2
      match r3.1 with
      | ']' :: t => .ok (.arr acc2, t, r3.2 + 1)
      | ',' :: t =>
        let r4 := skipWs t (r3.2 + 1)
        parseElems fuel r4.1 r4.2 acc2
      | _ => .error ⟨"Expecting \x27,\x27 delimiter", r3.2⟩
termination_by structural fuel _ _ _ => fuel

end

/-- Python `json.loads` on a document: skip whitespace, parse one value, skip
whitespace, and require the end of the document (`Extra data` otherwise). -/
def json_loads (doc : PyStr) : Except JsonErr JsonValue :=
  let r1 := skipWs doc 0
  match parseValue (doc.length + 1) r1.1 r1.2 with
  | .error e => .error e
  | .ok (v, r2, p2) =>
    let r3 := skipWs r2 p2
    match r3.1 with
    | [] => .ok v
    | _ => .error ⟨"Extra data", r3.2⟩

/-- `str(e)` for a `json.JSONDecodeError`: CPython renders
`"{msg}: line {lineno} column {colno} (char {pos})"` with `lineno`/`colno`
computed from the document and the absolute position. -/
def jsonErrStr (doc : PyStr) (e : JsonErr) : PyStr :=
  let pre := doc.take e.pos
  let lineno := pre.count '\n' + 1
  let colno := (pre.reverse.takeWhile (fun c => c ≠ '\n')).length + 1
  (e.msg).toList ++ pys ": line " ++ natDec lineno ++ pys " column " ++ natDec colno
    ++ pys " (char " ++ natDec e.pos ++ pys ")"

/-! ## Python exceptions and value semantics used by the handlers -/

/-- A Python exception as recorded by the gateways: either a generic
exception carrying its `str`, or a `json.JSONDecodeError` (whose `str` is
rendered from the offending document and position). -/
inductive PyExn where
  | generic (msg : PyStr)
  | jsonDecode (doc : PyStr) (e : JsonErr)

/-- `str(e)` for a recorded exception. -/
def PyExn.toStr : PyExn → PyStr
  | .generic m => m
  | .jsonDecode doc e => jsonErrStr doc e

/-- `str(last_error)` where `last_error` may still be `None`. -/
def optExnStr : Option PyExn → PyStr
  | none => pys "None"
  | some e => e.toStr

/-- Python type name of a `json.loads` result (used in exception messages). -/
def pyTypeName : JsonValue → String
  | .null => "NoneType"
  | .bool _ => "bool"
  | .int _ => "int"
  | .float _ => "float"
  | .str _ => "str"
  | .arr _ => "list"
  | .obj _ => "dict"

/-- Python truthiness of a `json.loads` result (`if result:`).  A float
lexeme denotes zero iff its mantissa has no nonzero digit; `NaN`/`Infinity`
are truthy. -/
def pyTruthy : JsonValue → Bool
  | .null => false
  | .bool b => b
  | .int n => n ≠ 0
  | .float raw =>
    raw.any (fun c => c = 'N' ∨ c = 'I') ∨
      ¬ ((raw.takeWhile (fun c => c ≠ 'e' ∧ c ≠ 'E')).filter Char.isDigit).all (fun c => c = '0')
  | .str s => s ≠ []
  | .arr xs => !xs.isEmpty
  | .obj kvs => !kvs.isEmpty

/-- Python `key in value` for a string key and a `json.loads` result: key
membership for dicts, elementwise `==` for lists (a str equals only an equal
str), substring test for strings, `TypeError` otherwise. -/
def pyIn (key : PyStr) : JsonValue → Except PyExn Bool
  | .obj kvs => .ok (kvs.any (fun p => p.1 = key))
  | .arr xs => .ok (xs.any (fun v => match v with | .str s => s = key | _ => false))
  | .str s => .ok (pyContainsSub s key)
  | other =>
    .error (.generic (pys ("argument of type \x27" ++ pyTypeName other ++ "\x27 is not iterable")))

/-- Python `value.get(key, default)`: dicts look up, anything else raises
`AttributeError`. -/
def pyGet (v : JsonValue) (key : PyStr) (default : JsonValue) : Except PyExn JsonValue :=
  match v with
  | .obj kvs => .ok ((dictLookup kvs key).getD default)
  | other =>
    .error (.generic (pys ("\x27" ++ pyTypeName other ++ "\x27 object has no attribute \x27get\x27")))

/-- Python `value[key]` for a string key: dict lookup (`KeyError` when the
key is missing; `str(KeyError)` is the `repr` of the key), `TypeError`
otherwise. -/
def pyGetItem (v : JsonValue) (key : PyStr) : Except PyExn JsonValue :=
  match v with
  | .obj kvs =>
    match dictLookup kvs key with
    | some x => .ok x
    | none => .error (.generic ('\x27' :: key ++ ['\x27']))
  | .arr _ => .error (.generic (pys "list indices must be integers or slices, not str"))
  | .str _ => .error (.generic (pys "string indices must be integers"))
  | other =>
    .error (.generic (pys ("\x27" ++ pyTypeName other ++ "\x27 object is not subscriptable")))

/-- Python `value[0]` (the OpenAI-shaped `choices[0]` extraction): head of a
list or string, `IndexError` when empty, `KeyError(0)` for dicts, `TypeError`
otherwise. -/
def pyIndex0 : JsonValue → Except PyExn JsonValue
  | .arr (x :: _) => .ok x
  | .arr [] => .error (.generic (pys "list index out of range"))
  | .str (c :: _) => .ok (.str [c])
  | .str [] => .error (.generic (pys "string index out of range"))
  | .obj _ => .error (.generic (pys "0"))
  | other =>
    .error (.generic (pys ("\x27" ++ pyTypeName other ++ "\x27 object is not subscriptable")))

/-! ## `json.dumps` (used when interpolating rule lists into prompts) -/

def hexDigit (n : Nat) : Char :=
  if n < 10 then Char.ofNat ('0'.toNat + n) else Char.ofNat ('a'.toNat + n - 10)

/-- A `\uXXXX` escape as emitted by `json.dumps(ensure_ascii=True)`. -/
def uEscape (n : Nat) : PyStr :=
  ['\\', 'u', hexDigit (n / 4096 % 16), hexDigit (n / 256 % 16), hexDigit (n / 16 % 16),
    hexDigit (n % 16)]

/-- One character of a dumped JSON string (default `ensure_ascii=True`:
everything outside printable ASCII is `\uXXXX`-escaped, astral code points as
surrogate pairs). -/
def dumpChar (c : Char) : PyStr :=
  if c = '"' then pys "\\\""
  else if c = '\\' then pys "\\\\"
  else if c = '\n' then pys "\\n"
  else if c = '\r' then pys "\\r"
  else if c = '\t' then pys "\\t"
  else if c = '\x08' then pys "\\b"
  else if c = '\x0c' then pys "\\f"
  else if c.toNat < 0x20 ∨ 0x7e < c.toNat then
    if 0x10000 ≤ c.toNat then
      uEscape (0xD800 + (c.toNat - 0x10000) / 0x400) ++ uEscape (0xDC00 + (c.toNat - 0x10000) % 0x400)
    else uEscape c.toNat
  else [c]

mutual

/-- Python `json.dumps` with default separators (`', '`/`': '`) and
`ensure_ascii=True`; floats are re-emitted as their stored lexeme. -/
def json_dumps : JsonValue → PyStr
  | .null => pys "null"
  | .bool true => pys "true"
  | .bool false => pys "false"
  | .int n => (toString n).toList
  | .float raw => raw
  | .str s => '"' :: s.foldr (fun c acc => dumpChar c ++ acc) ['"']
  | .arr xs => '[' :: List.intercalate (pys ", ") (dumpsList xs) ++ [']']
  | .obj kvs => '\x7b' :: List.intercalate (pys ", ") (dumpsPairs kvs) ++ ['\x7d']

def dumpsList : List JsonValue → List PyStr
  | [] => []
  | x :: xs => json_dumps x :: dumpsList xs

def dumpsPairs : List (PyStr × JsonValue) → List PyStr
  | [] => []
  | (k, v) :: xs =>
    ('"' :: k.foldr (fun c acc => dumpChar c ++ acc) ['"'] ++ pys ": " ++ json_dumps v)
      :: dumpsPairs xs

end

/-- Python `"\n".join`. -/
def pyJoin (sep : PyStr) (xs : List PyStr) : PyStr := List.intercalate sep xs

/-! ## `app.py` — the Gemini gateway (`call_gemini`) -/

/-- The request `call_gemini` issues for one candidate model:
`genai.GenerativeModel(model_name=..., system_instruction=...,
generation_config={"response_mime_type": "application/json"})` followed by
`model.generate_content(user_prompt)`.  The source passes no
`request_options`, so the request carries no explicit timeout
(`requestTimeout := none`). -/
structure GeminiRequest where
  modelName : PyStr
  systemInstruction : PyStr
  responseMimeType : PyStr
  userPrompt : PyStr
  requestTimeout : Option Nat

def mkGeminiRequest (m sys prompt : PyStr) : GeminiRequest :=
  { modelName := m, systemInstruction := sys, responseMimeType := pys "application/json",
    userPrompt := prompt, requestTimeout := none }

/-- Outcome of one `generate_content` call: an exception (with its `str`) or
a response whose `.text` is the given body. -/
inductive GenOutcome where
  | exn (msg : PyStr)
  | text (body : PyStr)

/-- The upstream model service, as an oracle over the built request. -/
abbrev GeminiOracle := GeminiRequest → GenOutcome

/-- One iteration of `call_gemini`'s loop body for model `m`: build the
model, generate, and `json.loads(response.text)`; any exception (transport or
JSON decode) is the recorded failure. -/
def attempt (g : GeminiOracle) (sys prompt m : PyStr) : Except PyExn JsonValue :=
  match g (mkGeminiRequest m sys prompt) with
  | .exn msg => .error (.generic msg)
  | .text t =>
    match json_loads t with
    | .ok j => .ok j
    | .error e => .error (.jsonDecode t e)

/-- Whether the attempt for model `m` fails (transport or parse). -/
def attemptFails (g : GeminiOracle) (sys prompt m : PyStr) : Bool :=
  match attempt g sys prompt m with
  | .error _ => true
  | .ok _ => false

/-- `call_gemini`'s fallback loop (`for model_name in models_to_try`), also
returning the list of models actually attempted, in order.  On success the
parsed JSON is returned at once; on exhaustion the loop falls through to
`{"error": str(last_error)}`. -/
def tryModels (g : GeminiOracle) (sys prompt : PyStr) :
    List PyStr → Option PyExn → JsonValue × List PyStr
  | [], last => (.obj [(pys "error", .str (optExnStr last))], [])
  | m :: rest, _ =>
    match attempt g sys prompt m with
    | .ok j => (j, [m])
    | .error e =>
      let r := tryModels g sys prompt rest (some e)
      (r.1, m :: r.2)

/-- `models_to_try` from `call_gemini` (priority order). -/
def models_to_try : List PyStr :=
  [pys "gemini-1.5-flash", pys "gemini-pro", pys "gemini-2.5-flash"]

/-- The `{"error": "Chave de API não configurada."}` dict returned when
`GEMINI_API_KEY` is absent. -/
def configErrObj : JsonValue :=
  .obj [(pys "error", .str (pys "Chave de API não configurada."))]

/-- `call_gemini(system_instruction, user_prompt)`.  `apiKey` models the
process-wide `GEMINI_API_KEY` (`None` or a string; `if not GEMINI_API_KEY`
treats the empty string like `None`).  The second component is the list of
models attempted — empty means no network call was made. -/
def call_gemini (apiKey : Option PyStr) (g : GeminiOracle) (sys prompt : PyStr) :
    JsonValue × List PyStr :=
  match apiKey with
  | none => (configErrObj, [])
  | some k => if k = [] then (configErrObj, []) else tryModels g sys prompt models_to_try none

/-! ## `app.py` — Flask routes -/

/-- A Flask response as the routes produce it: a JSON body with a status
code, or an unhandled exception inside the handler (Flask's generic 500 HTML
error page, which has no JSON body). -/
inductive HttpResp where
  | json (status : Nat) (body : JsonValue)
  | crash

/-- The shared tail of every Flask route:

    if result and "error" in result: return jsonify(result), 400
    if result: return jsonify(result[key])        -- or jsonify(result)
    return jsonify({"error": "Falha na IA"}), 500

`key := none` for the pass-through routes.  A `TypeError` from `in` or a
`KeyError`/`TypeError` from the subscript is an unhandled exception. -/
def flask_tail (key : Option PyStr) (result : JsonValue) : HttpResp :=
  if pyTruthy result then
    match pyIn (pys "error") result with
    | .error _ => .crash
    | .ok true => .json 400 result
    | .ok false =>
      match key with
      | none => .json 200 result
      | some k =>
        match pyGetItem result k with
        | .ok v => .json 200 v
        | .error _ => .crash
  else .json 500 (.obj [(pys "error", .str (pys "Falha na IA"))])

/-- `request.json` fields of `/api/generate-story`, after the
`data.get(field, '')` defaulting the route applies. -/
structure StoryData where
  idea : PyStr
  user : PyStr
  action : PyStr
  benefit : PyStr

/-- `QAPair`/`ChatMessage` items as the consolidate routes read them
(`i['question']`, `i['answer']`, `msg['role']`, `msg['content']`). -/
structure QAPair where
  question : PyStr
  answer : PyStr

structure ChatMessage where
  role : PyStr
  content : PyStr

def SYS_generate_story : PyStr := pys "\n    Você é um Product Owner experiente (PO Coach). \n    Sua tarefa é criar ou refinar uma User Story baseada em inputs parciais.\n\n    INSTRUÇÃO DE REFINAMENTO:\n    Analise o rascunho gerado a partir da ideia e dos inputs. \n    Se o verbo da ação for passivo (ex: \x27visualizar\x27, \x27ver\x27) ou o valor for vago (ex: \x27facilitar\x27, \x27melhorar\x27),\n    sugira um refinamento no verbo e na frase \x27para que\x27 para torná-los mais acionáveis, específicos e orientados a valor.\n\n    O objetivo é gerar o rascunho canônico de alta qualidade: \"Como um [Persona], eu quero [Ação], para que [Valor].\"\n\n    Retorne APENAS um JSON no formato:\n    \x7b\n        \"user\": \"string (quem é o usuário)\",\n        \"action\": \"string (o que ele quer fazer - refinado se necessário)\",\n        \"benefit\": \"string (para que - refinado se necessário)\",\n        \"formattedStory\": \"string (HTML formatado com tags <strong> para Como, Quero, Para)\"\n    \x7d\n    Se algum campo estiver vazio, infira o melhor conteúdo baseado no campo \x27idea\x27, aplicando as regras de refinamento acima.\n    "

/-- The f-string user prompt of `/api/generate-story`. -/
def flask_story_prompt (d : StoryData) : PyStr :=
  pys "\n    Ideia Bruta: " ++ d.idea ++ pys "\n    Usuário sugerido: " ++ d.user ++
    pys "\n    Ação sugerida: " ++ d.action ++ pys "\n    Benefício sugerido: " ++ d.benefit ++
    pys "\n    "

def flask_generate_story (apiKey : Option PyStr) (g : GeminiOracle) (d : StoryData) : HttpResp :=
  flask_tail none (call_gemini apiKey g SYS_generate_story (flask_story_prompt d)).1

def SYS_generate_questions : PyStr := pys "\n    Atue como um Analista de Negócios Sênior e Especialista em QA.\n    \n    Sua missão é analisar o Contexto da História de Usuário e identificar lacunas, riscos e regras não explícitas.\n    Gere perguntas estratégicas para \"blindar\" essa funcionalidade tente identificar pontos que não foram mencionados anteriormente.\n\n    Retorne JSON: \x7b \"questions\": [\x7b\"label\": \"...\", \"ph\": \"...\"\x7d] \x7d\n    "

def flask_generate_questions (apiKey : Option PyStr) (g : GeminiOracle) (context : PyStr) :
    HttpResp :=
  flask_tail (some (pys "questions"))
    (call_gemini apiKey g SYS_generate_questions (pys "Contexto: " ++ context)).1

def SYS_chat_rules : PyStr := pys "\n    Você é um PO Coach. O usuário está adicionando regras manualmente.\n    Reconheça a regra e pergunte se há mais.\n    Retorne JSON: \x7b \"reply\": \"...\" \x7d\n    "

def flask_chat_rules (apiKey : Option PyStr) (g : GeminiOracle) (context message : PyStr) :
    HttpResp :=
  flask_tail none
    (call_gemini apiKey g SYS_chat_rules
      (pys "Contexto: " ++ context ++ pys "\nUsuário disse: " ++ message)).1

def SYS_consolidate_rules : PyStr := pys "\n    Converta tudo (Quiz + Chat) em Regras Formais.\n    Retorne JSON: \x7b \"rules\": [\x7b\"id\": \"RN-01\", \"text\": \"...\"\x7d] \x7d\n    "

/-- The `/api/consolidate-rules` user prompt (`app.py`): `"\n".join` of
`f"P: {q} R: {a}"` lines, `"\n".join` of `f"{role}: {content}"` lines, glued
as `f"História: {context}\nQuiz: {qa_text}\nChat: {chat_text}"`. -/
def flask_consolidate_prompt (context : PyStr) (qaPairs : List QAPair)
    (chatHistory : List ChatMessage) : PyStr :=
  let qa_text := pyJoin (pys "\n")
    (qaPairs.map (fun i => pys "P: " ++ i.question ++ pys " R: " ++ i.answer))
  let chat_text := pyJoin (pys "\n")
    (chatHistory.map (fun msg => msg.role ++ pys ": " ++ msg.content))
  pys "História: " ++ context ++ pys "\nQuiz: " ++ qa_text ++ pys "\nChat: " ++ chat_text

def flask_consolidate_rules (apiKey : Option PyStr) (g : GeminiOracle) (context : PyStr)
    (qaPairs : List QAPair) (chatHistory : List ChatMessage) : HttpResp :=
  flask_tail (some (pys "rules"))
    (call_gemini apiKey g SYS_consolidate_rules
      (flask_consolidate_prompt context qaPairs chatHistory)).1

def SYS_generate_gherkin : PyStr := pys "\n    QA BDD. Crie cenários Gherkin. Use tags HTML <span> com classes .gherkin-keyword, .gherkin-variable.\n    Retorne JSON: \x7b \"scenarios\": [\x7b\"ruleId\": \"...\", \"originalRule\": \"...\", \"gherkinText\": \"...\"\x7d] \x7d\n    "

/-- `/api/generate-gherkin` (`app.py`): `rules` is the raw JSON list from the
request body, interpolated via `json.dumps`. -/
def flask_generate_gherkin (apiKey : Option PyStr) (g : GeminiOracle) (rules : JsonValue) :
    HttpResp :=
  flask_tail (some (pys "scenarios"))
    (call_gemini apiKey g SYS_generate_gherkin (pys "Regras: " ++ json_dumps rules)).1

def SYS_validate_story : PyStr := pys "\n    Agile Coach. Avalie (0-100) e sugira splitting se necessario.\n    Retorne JSON: \n    \x7b \"score\": int, \"message\": \"str\", \"isLarge\": bool, \"splittingSuggestions\": [\x7b\"type\": \"...\", \"title\": \"...\", \"description\": \"...\"\x7d] \x7d\n    "

/-- `/api/validate-story` (`app.py`): the prompt only interpolates the story
and the `len()` of the two lists. -/
def flask_validate_story (apiKey : Option PyStr) (g : GeminiOracle) (story : PyStr)
    (rules scenarios : List JsonValue) : HttpResp :=
  flask_tail none
    (call_gemini apiKey g SYS_validate_story
      (pys "Story: " ++ story ++ pys "\nRules: " ++ natDec rules.length ++
        pys "\nScenarios: " ++ natDec scenarios.length)).1

/-! ## `internal.py` — the internal-GPT gateway (`call_internal_gpt`) -/

/-- Process-wide configuration of `internal.py`: `url_interna`, `key_interna`
(each `None` when unset) and `GPT_MODEL` (with the `"gpt-3.5-turbo"` default
already applied by `os.getenv`). -/
structure InternalCfg where
  apiUrl : Option PyStr
  apiKey : Option PyStr
  modelName : PyStr

/-- The `requests.post(API_URL, headers=..., json=payload, timeout=60)`
request `call_internal_gpt` issues: URL, `Authorization: Bearer` header,
OpenAI-style payload, and the explicit 60-second timeout. -/
structure InternalRequest where
  url : Option PyStr
  authBearer : PyStr
  contentType : PyStr
  model : PyStr
  messages : List (PyStr × PyStr)
  temperature : PyStr
  timeoutSecs : Option Nat

def mkInternalReq (cfg : InternalCfg) (key sys user : PyStr) : InternalRequest :=
  { url := cfg.apiUrl, authBearer := pys "Bearer " ++ key,
    contentType := pys "application/json", model := cfg.modelName,
    messages := [(pys "system", sys), (pys "user", user)],
    temperature := pys "0.7", timeoutSecs := some 60 }

/-- Outcome of the `requests.post` call: a `RequestException` (connection
error, timeout, invalid URL, ...) with its `str`, or an HTTP response with a
status code and a raw body. -/
inductive PostOutcome where
  | exn (msg : PyStr)
  | resp (status : Nat) (body : PyStr)

abbrev PostOracle := InternalRequest → PostOutcome

/-- A FastAPI `HTTPException(status_code, detail)`. -/
structure HTTPExc where
  status : Nat
  detail : PyStr

/-- `result.get("choices", [{}])[0].get("message", {}).get("content", "")`. -/
def extract_content (result : JsonValue) : Except PyExn JsonValue := do
  let choices ← pyGet result (pys "choices") (.arr [.obj []])
  let first ← pyIndex0 choices
  let message ← pyGet first (pys "message") (.obj [])
  pyGet message (pys "content") (.str [])

/-- The Markdown code-fence stripping of `call_internal_gpt`:

    if content.strip().startswith("```json"):
        content = content.replace("```json", "").replace("```", "")
    elif content.strip().startswith("```"):
        content = content.replace("```", "")

Note `str.replace` rewrites every occurrence, not only the fences. -/
def unfence (content : PyStr) : PyStr :=
  if pyStartswith (pyStrip content) (pys "```json") then
    pyReplace (pyReplace content (pys "```json") []) (pys "```") []
  else if pyStartswith (pyStrip content) (pys "```") then
    pyReplace content (pys "```") []
  else content

/-- `json.loads(content.strip())` after the fence stripping. -/
def parse_content (content : PyStr) : Except JsonErr JsonValue :=
  json_loads (pyStrip (unfence content))

/-- `str(e)` for the content value that has no `.strip()`. -/
def noStripMsg (v : JsonValue) : PyStr :=
  pys ("\x27" ++ pyTypeName v ++ "\x27 object has no attribute \x27strip\x27")

/-- `call_internal_gpt(system_prompt, user_prompt)`.  Returns the parsed JSON
or the `HTTPException` raised, together with the list of `requests.post`
calls issued (empty = no network attempt).  Branches, in source order:
missing `key_interna` → 500 before any request; `RequestException` (from the
post or from `raise_for_status`, and — in requests ≥ 2.27 — the envelope's
`response.json()` decode error, which subclasses `RequestException`) → 502;
a non-`str` content → the generic 500 with `str(e)`; a content that fails
`json.loads` after fence-stripping → 500 `"A IA não retornou um JSON
válido."`; otherwise the parsed JSON. -/
def call_internal_gpt (cfg : InternalCfg) (post : PostOracle) (system_prompt user_prompt : PyStr) :
    Except HTTPExc JsonValue × List InternalRequest :=
  match cfg.apiKey with
  | none => (.error ⟨500, pys "Chave de API interna não configurada."⟩, [])
  | some key =>
    if key = [] then (.error ⟨500, pys "Chave de API interna não configurada."⟩, [])
    else
      let req := mkInternalReq cfg key system_prompt user_prompt
      match post req with
      | .exn _ => (.error ⟨502, pys "Erro de comunicação com a API interna."⟩, [req])
      | .resp status body =>
        if 400 ≤ status ∧ status < 600 then
          -- raise_for_status → HTTPError, a RequestException
          (.error ⟨502, pys "Erro de comunicação com a API interna."⟩, [req])
        else
          match json_loads body with
          | .error _ => (.error ⟨502, pys "Erro de comunicação com a API interna."⟩, [req])
          | .ok result =>
            match extract_content result with
            | .error e => (.error ⟨500, e.toStr⟩, [req])
            | .ok (.str content) =>
              match parse_content content with
              | .ok parsed => (.ok parsed, [req])
              | .error _ => (.error ⟨500, pys "A IA não retornou um JSON válido."⟩, [req])
            | .ok other => (.error ⟨500, noStripMsg other⟩, [req])

/-- FastAPI's rendering of a route that returns a dict or raises
`HTTPException`: 200 with the returned value, or the exception's status with
the `{"detail": ...}` body. -/
def fastapi_route : Except HTTPExc JsonValue → Nat × JsonValue
  | .ok v => (200, v)
  | .error e => (e.status, .obj [(pys "detail", .str e.detail)])

/-! ## `internal.py` — FastAPI routes (pydantic request models) -/

structure StoryRequest where
  idea : PyStr
  user : PyStr
  action : PyStr
  benefit : PyStr

structure Rule where
  id : PyStr
  text : PyStr

structure Scenario where
  ruleId : PyStr
  gherkinText : PyStr

def ruleToJson (r : Rule) : JsonValue :=
  .obj [(pys "id", .str r.id), (pys "text", .str r.text)]

def scenarioToJson (s : Scenario) : JsonValue :=
  .obj [(pys "ruleId", .str s.ruleId), (pys "gherkinText", .str s.gherkinText)]

def ISYS_generate_story : PyStr := pys "\n    Você é um Product Owner experiente (PO Coach). \n    Sua tarefa é criar ou refinar uma User Story baseada em inputs parciais.\n    INSTRUÇÃO DE REFINAMENTO:\n    Analise o rascunho. Se o verbo for passivo, torne-o acionável. Se o benefício for vago, torne-o específico.\n    Retorne APENAS JSON:\n    \x7b\n        \"user\": \"string\",\n        \"action\": \"string\",\n        \"benefit\": \"string\",\n        \"formattedStory\": \"HTML string com tags <strong>\"\n    \x7d\n    "

def internal_generate_story (cfg : InternalCfg) (post : PostOracle) (req : StoryRequest) :
    Nat × JsonValue :=
  fastapi_route (call_internal_gpt cfg post ISYS_generate_story
    (pys "Ideia: " ++ req.idea ++ pys "\nUsuário: " ++ req.user ++ pys "\nAção: " ++ req.action ++
      pys "\nBenefício: " ++ req.benefit)).1

def ISYS_generate_questions : PyStr := pys "\n    Atue como um Analista de Negócios Sênior e Especialista em QA.\n    Gere de 3 a 5 perguntas estratégicas para \"blindar\" essa funcionalidade (Exceção, Validação, Segurança).\n    Retorne APENAS JSON:\n    \x7b \"questions\": [\x7b \"label\": \"Pergunta?\", \"ph\": \"Exemplo\" \x7d] \x7d\n    "

def internal_generate_questions (cfg : InternalCfg) (post : PostOracle) (context : PyStr) :
    Nat × JsonValue :=
  fastapi_route (call_internal_gpt cfg post ISYS_generate_questions
    (pys "Contexto: " ++ context)).1

def ISYS_chat_rules : PyStr := pys "\n    Você é um PO Coach. Reconheça a regra informada e pergunte se há mais. Seja breve.\n    Retorne JSON: \x7b \"reply\": \"...\" \x7d\n    "

def internal_chat_rules (cfg : InternalCfg) (post : PostOracle) (context message : PyStr) :
    Nat × JsonValue :=
  fastapi_route (call_internal_gpt cfg post ISYS_chat_rules
    (pys "Contexto: " ++ context ++ pys "\nUsuário disse: " ++ message)).1

def ISYS_consolidate_rules : PyStr := pys "\n    Arquiteto de Software. Consolidar TUDO (respostas + chat) em Regras Formais.\n    Retorne JSON: \x7b \"rules\": [\x7b\"id\": \"RN-01\", \"text\": \"...\"\x7d] \x7d\n    "

/-- The `/api/consolidate-rules` user prompt (`internal.py`):
`f"Contexto: {req.context}\nQuestionário:\n{qa_text}\nChat:\n{chat_text}"`. -/
def internal_consolidate_prompt (context : PyStr) (qaPairs : List QAPair)
    (chatHistory : List ChatMessage) : PyStr :=
  let qa_text := pyJoin (pys "\n")
    (qaPairs.map (fun qa => pys "P: " ++ qa.question ++ pys " R: " ++ qa.answer))
  let chat_text := pyJoin (pys "\n")
    (chatHistory.map (fun msg => msg.role ++ pys ": " ++ msg.content))
  pys "Contexto: " ++ context ++ pys "\nQuestionário:\n" ++ qa_text ++ pys "\nChat:\n" ++ chat_text

def internal_consolidate_rules (cfg : InternalCfg) (post : PostOracle) (context : PyStr)
    (qaPairs : List QAPair) (chatHistory : List ChatMessage) : Nat × JsonValue :=
  fastapi_route (call_internal_gpt cfg post ISYS_consolidate_rules
    (internal_consolidate_prompt context qaPairs chatHistory)).1

def ISYS_generate_gherkin : PyStr := pys "\n    QA BDD. Crie cenários Gherkin em PT-BR.\n    Use tags HTML <span> com classes: .gherkin-keyword, .gherkin-variable, .gherkin-string.\n    Retorne JSON: \x7b \"scenarios\": [\x7b\"ruleId\": \"...\", \"originalRule\": \"...\", \"gherkinText\": \"...\"\x7d] \x7d\n    "

def internal_generate_gherkin (cfg : InternalCfg) (post : PostOracle) (rules : List Rule) :
    Nat × JsonValue :=
  fastapi_route (call_internal_gpt cfg post ISYS_generate_gherkin
    (pys "Regras: " ++ json_dumps (.arr (rules.map ruleToJson)))).1

def ISYS_validate_story : PyStr := pys "\n    Agile Coach especialista em INVEST.\n    1. Dê nota 0-100.\n    2. Se nota < 70 ou complexa, \x27isLarge\x27: true e sugira splittings.\n    Retorne JSON: \n    \x7b \"score\": int, \"message\": \"str\", \"isLarge\": bool, \"splittingSuggestions\": [\x7b\"type\": \"...\", \"title\": \"...\", \"description\": \"...\"\x7d] \x7d\n    "

def internal_validate_story (cfg : InternalCfg) (post : PostOracle) (story : PyStr)
    (rules : List Rule) (scenarios : List Scenario) : Nat × JsonValue :=
  fastapi_route (call_internal_gpt cfg post ISYS_validate_story
    (pys "Story: " ++ story ++ pys "\nRules: " ++ json_dumps (.arr (rules.map ruleToJson)) ++
      pys "\nScenarios: " ++ json_dumps (.arr (scenarios.map scenarioToJson)))).1

/-! ## Concrete stubs used by witnesses and counterexamples -/

/-- A model service on which every candidate returns the non-JSON text
`"not json"`. -/
def gAllBad : GeminiOracle := fun _ => .text (pys "not json")

/-- A model service on which `gemini-pro` returns `{"ok": 1}` and every other
candidate returns non-JSON text. -/
def gSecond : GeminiOracle := fun r =>
  if r.modelName = pys "gemini-pro" then .text (pys "\x7b\"ok\": 1\x7d") else .text (pys "bad")

/-- A fully configured `internal.py` process. -/
def cfgOk : InternalCfg := ⟨some (pys "http://x"), some (pys "key"), pys "gpt-3.5-turbo"⟩

/-- An `internal.py` process with no `key_interna`. -/
def cfgNoKey : InternalCfg := ⟨some (pys "http://x"), none, pys "gpt-3.5-turbo"⟩

/-- An OpenAI-style 200 response body whose `choices[0].message.content` is
the given string. -/
def mkEnvelope (content : PyStr) : PyStr :=
  json_dumps (.obj [(pys "choices",
    .arr [.obj [(pys "message", .obj [(pys "content", .str content)])]])])

/-- An internal endpoint that always answers 200 with the given content. -/
def postWith (content : String) : PostOracle := fun _ => .resp 200 (mkEnvelope (pys content))

/-- The scenario of the spec's Generate-Gherkin example. -/
def scWit : JsonValue :=
  .obj [(pys "ruleId", .str (pys "RN-01")),
    (pys "gherkinText", .str (pys "<span class=\x27gherkin-keyword\x27>Dado</span> ..."))]

/-- The `"```json"` fence as an explicit character list (`= pys "```json"`). -/
def fenceJ : PyStr := '\x60' :: '\x60' :: '\x60' :: 'j' :: 's' :: 'o' :: 'n' :: []

/-- The `"```"` fence as an explicit character list (`= pys "```"`). -/
def fenceT : PyStr := '\x60' :: '\x60' :: '\x60' :: []


/-! ## Helper lemmas about the fallback loop -/

/-- If every model in `pre` fails and `m` succeeds with `j`, the loop stops at
`m` and returns `j`, having attempted exactly `pre ++ [m]`. -/
theorem tryModels_first_ok (g : GeminiOracle) (sys prompt : PyStr)
    (pre : List PyStr) (m : PyStr) (post : List PyStr) (j : JsonValue)
    (hpre : ∀ m' ∈ pre, attemptFails g sys prompt m' = true)
    (hm : attempt g sys prompt m = .ok j) :
    ∀ last, tryModels g sys prompt (pre ++ m :: post) last = (j, pre ++ [m]) := by
  induction pre with
  | nil => intro last; simp [tryModels, hm]
  | cons a t ih =>
    intro last
    have ha := hpre a (by simp)
    have ht : ∀ m' ∈ t, attemptFails g sys prompt m' = true :=
      fun m' hm' => hpre m' (by simp [hm'])
    cases hat : attempt g sys prompt a with
    | ok v => simp [attemptFails, hat] at ha
    | error e => simp [tryModels, hat, ih ht]

/-- If every model in `init` fails and the final model fails with `e`, the
loop exhausts the list and returns `{"error": str(e)}`, having attempted the
whole list. -/
theorem tryModels_exhaust (g : GeminiOracle) (sys prompt : PyStr)
    (init : List PyStr) (mlast : PyStr) (e : PyExn)
    (hinit : ∀ m' ∈ init, attemptFails g sys prompt m' = true)
    (hlast : attempt g sys prompt mlast = .error e) :
    ∀ last, tryModels g sys prompt (init ++ [mlast]) last =
      (.obj [(pys "error", .str e.toStr)], init ++ [mlast]) := by
  induction init with
  | nil => intro last; simp [tryModels, hlast, optExnStr]
  | cons a t ih =>
    intro last
    have ha := hinit a (by simp)
    have ht : ∀ m' ∈ t, attemptFails g sys prompt m' = true :=
      fun m' hm' => hinit m' (by simp [hm'])
    cases hat : attempt g sys prompt a with
    | ok v => simp [attemptFails, hat] at ha
    | error e' => simp [tryModels, hat, ih ht]

/-! ## Claims -/

/-- Claim C1: for every ordered list of model candidates, `call_gemini`'s
loop attempts candidates strictly in list order and, as soon as one
candidate's response parses as JSON, returns that parsed JSON immediately
without attempting any later candidate; if the first `N` candidates fail and
candidate `N+1` succeeds, exactly the first `N+1` candidates are attempted. -/
theorem C1_fallback_first_success (g : GeminiOracle) (sys prompt : PyStr)
    (pre : List PyStr) (m : PyStr) (post : List PyStr) (j : JsonValue)
    (hpre : ∀ m' ∈ pre, attemptFails g sys prompt m' = true)
    (hm : attempt g sys prompt m = .ok j) :
    tryModels g sys prompt (pre ++ m :: post) none = (j, pre ++ [m]) :=
  tryModels_first_ok g sys prompt pre m post j hpre hm none

/-- Witness for C1: on `gSecond`, `gemini-1.5-flash` fails, `gemini-pro`
succeeds, and `gemini-2.5-flash` is never attempted. -/
theorem C1_fallback_first_success_witness :
    tryModels gSecond (pys "s") (pys "p")
      ([pys "gemini-1.5-flash"] ++ (pys "gemini-pro") :: [pys "gemini-2.5-flash"]) none =
      (.obj [(pys "ok", .int 1)], [pys "gemini-1.5-flash"] ++ [pys "gemini-pro"]) :=
  C1_fallback_first_success gSecond (pys "s") (pys "p")
    [pys "gemini-1.5-flash"] (pys "gemini-pro") [pys "gemini-2.5-flash"]
    (.obj [(pys "ok", .int 1)])
    (by intro m' hm'; simp only [List.mem_singleton] at hm'; subst hm'; rfl) rfl

/-- Claim C2 as stated is false: when every candidate returns the non-JSON
text `"not json"`, the returned failure is
`{"error": "Expecting value: line 1 column 1 (char 0)"}` — the
`str(JSONDecodeError)` of the last attempt — and that detail does not contain
the last candidate's raw response text. -/
theorem C2_counterexample :
    call_gemini (some (pys "k")) gAllBad (pys "s") (pys "p") =
      (.obj [(pys "error", .str (pys "Expecting value: line 1 column 1 (char 0)"))],
        models_to_try) ∧
    pyContainsSub (pys "Expecting value: line 1 column 1 (char 0)") (pys "not json") = false :=
  ⟨rfl, rfl⟩

/-- Claim C2, amended: if every model candidate fails, the gateway returns a
failure dict carrying only the `str()` of the last recorded exception —
earlier errors are discarded; for a candidate whose text fails to parse, that
exception is the `json.JSONDecodeError` (a position-based message, not the
raw response text). -/
theorem C2_last_error_amended (g : GeminiOracle) (sys prompt : PyStr)
    (init : List PyStr) (mlast : PyStr) (e : PyExn)
    (hinit : ∀ m' ∈ init, attemptFails g sys prompt m' = true)
    (hlast : attempt g sys prompt mlast = .error e) :
    tryModels g sys prompt (init ++ [mlast]) none =
      (.obj [(pys "error", .str e.toStr)], init ++ [mlast]) :=
  tryModels_exhaust g sys prompt init mlast e hinit hlast none

/-- Witness for C2 (amended): all three candidates return `"not json"`; the
result carries the decode error of the last attempt. -/
theorem C2_last_error_amended_witness :
    tryModels gAllBad (pys "s") (pys "p")
      ([pys "gemini-1.5-flash", pys "gemini-pro"] ++ [pys "gemini-2.5-flash"]) none =
      (.obj [(pys "error",
        .str (PyExn.jsonDecode (pys "not json") ⟨"Expecting value", 0⟩).toStr)],
        [pys "gemini-1.5-flash", pys "gemini-pro"] ++ [pys "gemini-2.5-flash"]) :=
  C2_last_error_amended gAllBad (pys "s") (pys "p")
    [pys "gemini-1.5-flash", pys "gemini-pro"] (pys "gemini-2.5-flash")
    (.jsonDecode (pys "not json") ⟨"Expecting value", 0⟩)
    (by
      intro m' hm'
      simp only [List.mem_cons, List.not_mem_nil, or_false] at hm'
      rcases hm' with h | h <;> subst h <;> rfl) rfl

/-- Claim C3: with no API credentials configured, both gateways fail
immediately with their configuration-error failure and issue zero network
requests (the request log is empty).  `app.py` returns the
`{"error": "Chave de API não configurada."}` dict; `internal.py` raises
`HTTPException(500, "Chave de API interna não configurada.")`. -/
theorem C3_config_error_no_network :
    (∀ (g : GeminiOracle) (sys prompt : PyStr),
      call_gemini none g sys prompt = (configErrObj, []) ∧
      call_gemini (some []) g sys prompt = (configErrObj, [])) ∧
    (∀ (url : Option PyStr) (mn : PyStr) (post : PostOracle) (sys user : PyStr),
      call_internal_gpt ⟨url, none, mn⟩ post sys user =
        (.error ⟨500, pys "Chave de API interna não configurada."⟩, []) ∧
      call_internal_gpt ⟨url, some [], mn⟩ post sys user =
        (.error ⟨500, pys "Chave de API interna não configurada."⟩, [])) :=
  ⟨fun _ _ _ => ⟨rfl, rfl⟩, fun _ _ _ _ _ => ⟨rfl, rfl⟩⟩

/-- Claim C9 as stated is false: the Gemini request `call_gemini` issues (for
instance for the first candidate of the story route) carries no bounded
request timeout — the source passes no `request_options`. -/
theorem C9_counterexample :
    ¬ ∃ t, (mkGeminiRequest (pys "gemini-1.5-flash") SYS_generate_story
      (flask_story_prompt ⟨[], [], [], []⟩)).requestTimeout = some t := by
  simp [mkGeminiRequest]

/-- Claim C9, amended: every request the internal gateway issues carries the
explicit 60-second timeout of `requests.post(..., timeout=60)`, while the
Gemini requests of `call_gemini` carry no explicit timeout. -/
theorem C9_timeout_amended :
    (∀ (cfg : InternalCfg) (key sys user : PyStr),
      (mkInternalReq cfg key sys user).timeoutSecs = some 60) ∧
    (∀ (url : Option PyStr) (key mn : PyStr) (post : PostOracle) (sys user : PyStr),
      key ≠ [] →
      (call_internal_gpt ⟨url, some key, mn⟩ post sys user).2 =
        [mkInternalReq ⟨url, some key, mn⟩ key sys user]) ∧
    (∀ (m sys prompt : PyStr), (mkGeminiRequest m sys prompt).requestTimeout = none) := by
  refine ⟨fun _ _ _ _ => rfl, ?_, fun _ _ _ => rfl⟩
  intro url key mn post sys user hk
  simp only [call_internal_gpt]
  rw [if_neg hk]
  cases post (mkInternalReq ⟨url, some key, mn⟩ key sys user) with
  | exn m => rfl
  | resp st body =>
    dsimp only
    split
    · rfl
    · cases json_loads body with
      | error e => rfl
      | ok result =>
        dsimp only
        cases extract_content result with
        | error e => rfl
        | ok cv =>
          cases cv with
          | str content => dsimp only; cases parse_content content <;> rfl
          | null => rfl
          | bool b => rfl
          | int n => rfl
          | float raw => rfl
          | arr xs => rfl
          | obj kvs => rfl

/-- Witness for C9 (amended): the request issued by a configured internal
gateway carries `timeout=60`. -/
theorem C9_timeout_amended_witness :
    (call_internal_gpt ⟨some (pys "http://x"), some (pys "key"), pys "gpt-3.5-turbo"⟩
        (postWith "x") (pys "s") (pys "u")).2 =
      [mkInternalReq ⟨some (pys "http://x"), some (pys "key"), pys "gpt-3.5-turbo"⟩
        (pys "key") (pys "s") (pys "u")] :=
  C9_timeout_amended.2.1 (some (pys "http://x")) (pys "key") (pys "gpt-3.5-turbo")
    (postWith "x") (pys "s") (pys "u") (by simp [pys])

/-- Claim C10: in the Flask implementation a gateway success does not always
yield HTTP 200 — a truthy parsed JSON containing a top-level `"error"` key is
returned as the 400 body itself (indistinguishable from a gateway failure),
and a falsy parsed JSON (e.g. `{}`) yields 500 `{"error": "Falha na IA"}`;
this shared tail is used by every stage route. -/
theorem C10_success_not_always_200 (key : Option PyStr) (result : JsonValue) :
    (pyTruthy result = true → pyIn (pys "error") result = .ok true →
      flask_tail key result = .json 400 result) ∧
    (pyTruthy result = false →
      flask_tail key result = .json 500 (.obj [(pys "error", .str (pys "Falha na IA"))])) := by
  constructor
  · intro ht he
    simp [flask_tail, ht, he]
  · intro hf
    simp [flask_tail, hf]

/-- Witness for C10: the parsed model JSON `{"error": "x"}` comes back as a
400, and the parsed model JSON `{}` comes back as the 500 `Falha na IA`. -/
theorem C10_success_not_always_200_witness :
    flask_tail none (.obj [(pys "error", .str (pys "x"))]) =
      .json 400 (.obj [(pys "error", .str (pys "x"))]) ∧
    flask_tail (some (pys "questions")) (.obj []) =
      .json 500 (.obj [(pys "error", .str (pys "Falha na IA"))]) :=
  ⟨(C10_success_not_always_200 none _).1 rfl rfl,
   (C10_success_not_always_200 (some (pys "questions")) _).2 rfl⟩

/-- Claim C6: the code violates the shape-validation obligation.  When the
model's parsed JSON is `{"foo": []}` (no `questions` key), the FastAPI
`/api/generate-questions` route returns HTTP 200 with the full object — a
partial/undefined result, not a `ParseError`-class failure — and the Flask
route raises `KeyError` (an unhandled exception, Flask's generic 500 page),
also not a `ParseError`-class failure. -/
theorem C6_missing_key_not_parse_error :
    internal_generate_questions cfgOk (postWith "\x7b\"foo\": []\x7d") (pys "ctx") =
      (200, .obj [(pys "foo", .arr [])]) ∧
    flask_generate_questions (some (pys "k")) (fun _ => .text (pys "\x7b\"foo\": []\x7d"))
      (pys "ctx") = .crash :=
  ⟨rfl, rfl⟩

/-- Claim C7 as stated is false for the FastAPI implementation: with a stub
returning `{"scenarios": [sc]}`, `/api/generate-gherkin` returns the
enclosing object, not the bare one-element sequence. -/
theorem C7_counterexample :
    internal_generate_gherkin cfgOk
      (fun _ => .resp 200 (mkEnvelope (json_dumps (.obj [(pys "scenarios", .arr [scWit])]))))
      [⟨pys "RN-01", pys "X"⟩] =
      (200, .obj [(pys "scenarios", .arr [scWit])]) ∧
    JsonValue.obj [(pys "scenarios", .arr [scWit])] ≠ .arr [scWit] := by
  exact ⟨rfl, by simp⟩

/-- Claim C7, amended: the Flask handlers unwrap to the bare sequence stored
under the expected key — in particular, on the spec's example input the Flask
Generate-Gherkin route returns exactly the one-element scenario list — while
the FastAPI handlers return the gateway's parsed JSON unchanged. -/
theorem C7_unwrap_amended :
    (∀ (key : PyStr) (result v : JsonValue),
      pyTruthy result = true → pyIn (pys "error") result = .ok false →
      pyGetItem result key = .ok v → flask_tail (some key) result = .json 200 v) ∧
    (flask_generate_gherkin (some (pys "k"))
        (fun _ => .text (json_dumps (.obj [(pys "scenarios", .arr [scWit])])))
        (.arr [.obj [(pys "id", .str (pys "RN-01")), (pys "text", .str (pys "X"))]]) =
      .json 200 (.arr [scWit])) ∧
    (∀ (cfg : InternalCfg) (post : PostOracle) (rules : List Rule) (parsed : JsonValue),
      (call_internal_gpt cfg post ISYS_generate_gherkin
          (pys "Regras: " ++ json_dumps (.arr (rules.map ruleToJson)))).1 = .ok parsed →
      internal_generate_gherkin cfg post rules = (200, parsed)) := by
  refine ⟨?_, rfl, ?_⟩
  · intro key result v ht he hv
    simp [flask_tail, ht, he, hv]
  · intro cfg post rules parsed h
    simp [internal_generate_gherkin, fastapi_route, h]

/-- Witness for C7 (amended): unwrapping at `scenarios` on a clean gateway
result returns the bare list. -/
theorem C7_unwrap_amended_witness :
    flask_tail (some (pys "scenarios")) (.obj [(pys "scenarios", .arr [scWit])]) =
      .json 200 (.arr [scWit]) :=
  C7_unwrap_amended.1 (pys "scenarios") (.obj [(pys "scenarios", .arr [scWit])])
    (.arr [scWit]) rfl rfl rfl

/-- Claim C8: both Consolidate-Rules user prompts are deterministic pure
functions of the request input (they are plain functions of it here); with
empty `chatHistory` and the single QA pair `("Q1", "A1")` the rendered prompt
contains the substring `"P: Q1 R: A1"` and ends with an empty chat-transcript
section. -/
theorem C8_consolidate_prompt_render (context : PyStr) :
    flask_consolidate_prompt context [⟨pys "Q1", pys "A1"⟩] [] =
      pys "História: " ++ context ++ pys "\nQuiz: P: Q1 R: A1\nChat: " ∧
    internal_consolidate_prompt context [⟨pys "Q1", pys "A1"⟩] [] =
      pys "Contexto: " ++ context ++ pys "\nQuestionário:\nP: Q1 R: A1\nChat:\n" ∧
    (pys "P: Q1 R: A1") <:+: flask_consolidate_prompt context [⟨pys "Q1", pys "A1"⟩] [] ∧
    (pys "P: Q1 R: A1") <:+: internal_consolidate_prompt context [⟨pys "Q1", pys "A1"⟩] [] := by
  refine ⟨?_, ?_, ?_, ?_⟩
  · simp [flask_consolidate_prompt, pyJoin, List.intercalate, pys]
  · simp [internal_consolidate_prompt, pyJoin, List.intercalate, pys]
  · exact ⟨pys "História: " ++ context ++ pys "\nQuiz: ", pys "\nChat: ", by
      simp [flask_consolidate_prompt, pyJoin, pys, List.intercalate]⟩
  · exact ⟨pys "Contexto: " ++ context ++ pys "\nQuestionário:\n", pys "\nChat:\n", by
      simp [internal_consolidate_prompt, pyJoin, pys, List.intercalate]⟩

/-- Claim C5 as stated is false: on a `ConfigError` the Flask implementation
responds 400 (with the config-error dict as body), not 500. -/
theorem C5_counterexample :
    flask_generate_story none gAllBad ⟨[], [], [], []⟩ = .json 400 configErrObj ∧
    ∀ body, flask_generate_story none gAllBad ⟨[], [], [], []⟩ ≠ .json 500 body := by
  refine ⟨rfl, fun body h => ?_⟩
  rw [show flask_generate_story none gAllBad ⟨[], [], [], []⟩ = .json 400 configErrObj from rfl]
    at h
  simp only [HttpResp.json.injEq] at h
  exact absurd h.1 (by decide)

/-- Claim C5, amended, describing the mappings the two implementations
actually use.  FastAPI (`internal.py`): 200 on success; 500 on `ConfigError`
and on a content that fails the JSON parse; 502 on transport/HTTP failure;
the failure body is `{"detail": <string>}` (not `{"error": ...}`).
Flask (`app.py`): every gateway failure — config, connection and parse alike,
all encoded as `{"error": ...}` — surfaces as 400 with that dict as body;
a truthy parsed JSON without an `"error"` key yields 200; a falsy parsed JSON
yields 500 `{"error": "Falha na IA"}`. -/
theorem C5_status_mapping_amended :
    (∀ (url : Option PyStr) (mn : PyStr) (post : PostOracle) (sys user : PyStr),
      fastapi_route (call_internal_gpt ⟨url, none, mn⟩ post sys user).1 =
        (500, .obj [(pys "detail", .str (pys "Chave de API interna não configurada."))])) ∧
    (∀ (url : Option PyStr) (key mn : PyStr) (post : PostOracle) (sys user msg : PyStr),
      key ≠ [] →
      post (mkInternalReq ⟨url, some key, mn⟩ key sys user) = .exn msg →
      fastapi_route (call_internal_gpt ⟨url, some key, mn⟩ post sys user).1 =
        (502, .obj [(pys "detail", .str (pys "Erro de comunicação com a API interna."))])) ∧
    (∀ (url : Option PyStr) (key mn : PyStr) (post : PostOracle) (sys user : PyStr)
      (status : Nat) (body : PyStr) (env : JsonValue) (content : PyStr) (e : JsonErr),
      key ≠ [] →
      post (mkInternalReq ⟨url, some key, mn⟩ key sys user) = .resp status body →
      status < 400 →
      json_loads body = .ok env →
      extract_content env = .ok (.str content) →
      parse_content content = .error e →
      fastapi_route (call_internal_gpt ⟨url, some key, mn⟩ post sys user).1 =
        (500, .obj [(pys "detail", .str (pys "A IA não retornou um JSON válido."))])) ∧
    (∀ (url : Option PyStr) (key mn : PyStr) (post : PostOracle) (sys user : PyStr)
      (status : Nat) (body : PyStr) (env : JsonValue) (content : PyStr) (parsed : JsonValue),
      key ≠ [] →
      post (mkInternalReq ⟨url, some key, mn⟩ key sys user) = .resp status body →
      status < 400 →
      json_loads body = .ok env →
      extract_content env = .ok (.str content) →
      parse_content content = .ok parsed →
      fastapi_route (call_internal_gpt ⟨url, some key, mn⟩ post sys user).1 = (200, parsed)) ∧
    (∀ (g : GeminiOracle) (d : StoryData),
      flask_generate_story none g d = .json 400 configErrObj) ∧
    (∀ (g : GeminiOracle) (sys prompt : PyStr) (init : List PyStr) (mlast : PyStr) (e : PyExn),
      (∀ m' ∈ init, attemptFails g sys prompt m' = true) →
      attempt g sys prompt mlast = .error e →
      flask_tail none (tryModels g sys prompt (init ++ [mlast]) none).1 =
        .json 400 (.obj [(pys "error", .str e.toStr)])) ∧
    (∀ (result : JsonValue),
      pyTruthy result = true → pyIn (pys "error") result = .ok false →
      flask_tail none result = .json 200 result) ∧
    (∀ (result : JsonValue) (key : Option PyStr),
      pyTruthy result = false →
      flask_tail key result = .json 500 (.obj [(pys "error", .str (pys "Falha na IA"))])) := by
  refine ⟨fun _ _ _ _ _ => rfl, ?_, ?_, ?_, fun _ _ => rfl, ?_, ?_, ?_⟩
  · intro url key mn post sys user msg hk hpost
    simp only [call_internal_gpt]
    rw [if_neg hk, hpost]
    rfl
  · intro url key mn post sys user status body env content e hk hpost hst henv hex hpc
    simp only [call_internal_gpt]
    rw [if_neg hk, hpost]
    have h4 : ¬ (400 ≤ status ∧ status < 600) := by omega
    simp only [h4, if_false, henv, hex, hpc]
    rfl
  · intro url key mn post sys user status body env content parsed hk hpost hst henv hex hpc
    simp only [call_internal_gpt]
    rw [if_neg hk, hpost]
    have h4 : ¬ (400 ≤ status ∧ status < 600) := by omega
    simp only [h4, if_false, henv, hex, hpc]
    rfl
  · intro g sys prompt init mlast e hinit hlast
    rw [tryModels_exhaust g sys prompt init mlast e hinit hlast none]
    simp [flask_tail, pyTruthy, pyIn, pys]
  · intro result ht he
    simp [flask_tail, ht, he]
  · intro result key hf
    simp [flask_tail, hf]

/-- Witness for C5 (amended): a missing key gives the FastAPI 500 config
detail, and an all-candidates-parse-failure run of the Flask story route
gives a 400 with the recorded decode error. -/
theorem C5_status_mapping_amended_witness :
    fastapi_route (call_internal_gpt ⟨some (pys "http://x"), none, pys "gpt-3.5-turbo"⟩
        (postWith "x") (pys "s") (pys "u")).1 =
      (500, .obj [(pys "detail", .str (pys "Chave de API interna não configurada."))]) ∧
    fastapi_route (call_internal_gpt ⟨some (pys "http://x"), some (pys "key"),
        pys "gpt-3.5-turbo"⟩ (postWith "not json") (pys "s") (pys "u")).1 =
      (500, .obj [(pys "detail", .str (pys "A IA não retornou um JSON válido."))]) ∧
    flask_tail none (tryModels gAllBad (pys "s") (pys "p")
        ([pys "gemini-1.5-flash", pys "gemini-pro"] ++ [pys "gemini-2.5-flash"]) none).1 =
      .json 400 (.obj [(pys "error",
        .str (PyExn.jsonDecode (pys "not json") ⟨"Expecting value", 0⟩).toStr)]) := by
  refine ⟨C5_status_mapping_amended.1 (some (pys "http://x")) (pys "gpt-3.5-turbo")
      (postWith "x") (pys "s") (pys "u"), ?_, ?_⟩
  · exact C5_status_mapping_amended.2.2.1 (some (pys "http://x")) (pys "key")
      (pys "gpt-3.5-turbo") (postWith "not json") (pys "s") (pys "u") 200
      (mkEnvelope (pys "not json"))
      (.obj [(pys "choices", .arr [.obj [(pys "message",
        .obj [(pys "content", .str (pys "not json"))])]])])
      (pys "not json") ⟨"Expecting value", 0⟩
      (by simp [pys]) rfl (by omega) rfl rfl rfl
  · exact C5_status_mapping_amended.2.2.2.2.2.1 gAllBad (pys "s") (pys "p")
      [pys "gemini-1.5-flash", pys "gemini-pro"] (pys "gemini-2.5-flash")
      (.jsonDecode (pys "not json") ⟨"Expecting value", 0⟩)
      (by
        intro m' hm'
        simp only [List.mem_cons, List.not_mem_nil, or_false] at hm'
        rcases hm' with h | h <;> subst h <;> rfl) rfl

/-! ## Helper lemmas for the code-fence analysis (claim C4) -/

theorem isPrefixOf_append_self (l r : PyStr) : l.isPrefixOf (l ++ r) = true := by
  induction l with
  | nil => simp
  | cons a t ih => simp [List.isPrefixOf, ih]

/-- A pattern starting with `c0` matches at no position of a string free of
`c0`. -/
theorem prefix_false_head (c0 : Char) (ot s : PyStr) (hs : ∀ c ∈ s, c ≠ c0) :
    ∀ i, ((c0 :: ot).isPrefixOf (s.drop i)) = false := by
  intro i
  cases hd : s.drop i with
  | nil => rfl
  | cons d ds =>
    have hdmem : d ∈ s := List.drop_subset i s (by rw [hd]; exact List.mem_cons_self d ds)
    have hne : (c0 == d) = false := beq_eq_false_iff_ne.mpr (fun h => hs d hdmem h.symm)
    simp [List.isPrefixOf, hne]

/-- A pattern starting with `c0` matches at no position inside the `w` part
of `w ++ r` when `w` is free of `c0`. -/
theorem prefix_false_in_append (w r : PyStr) (c0 : Char) (ot : PyStr)
    (hw : ∀ c ∈ w, c ≠ c0) :
    ∀ i, i < w.length → ((c0 :: ot).isPrefixOf ((w ++ r).drop i)) = false := by
  intro i hi
  rw [List.drop_append_eq_append_drop]
  cases hd : w.drop i with
  | nil =>
    have := List.length_drop i w
    rw [hd] at this
    simp at this
    omega
  | cons d ds =>
    have hdmem : d ∈ w := List.drop_subset i w (by rw [hd]; exact List.mem_cons_self d ds)
    have hne : (c0 == d) = false := beq_eq_false_iff_ne.mpr (fun h => hw d hdmem h.symm)
    simp [List.isPrefixOf, hne]

/-- If the pattern matches at no position, one bounded scan is the
identity. -/
theorem replaceLoop_no_occ (old new : PyStr)
    (f : Nat) (s : PyStr) (h : ∀ i, old.isPrefixOf (s.drop i) = false) :
    replaceLoop old new f s = s := by
  induction f generalizing s with
  | zero => rfl
  | succ f' ih =>
    cases s with
    | nil => rfl
    | cons c t =>
      have h0 := h 0
      simp only [List.drop_zero] at h0
      simp only [replaceLoop, h0, Bool.false_eq_true, if_false]
      exact congrArg (c :: ·) (ih t (fun i => by simpa using h (i + 1)))

/-- One non-matching step of the scan. -/
theorem replaceLoop_cons_no_match (old new : PyStr) (f : Nat) (c : Char) (t : PyStr)
    (h : old.isPrefixOf (c :: t) = false) :
    replaceLoop old new (f + 1) (c :: t) = c :: replaceLoop old new f t := by
  simp [replaceLoop, h]

/-- One matching step of the scan. -/
theorem replaceLoop_cons_match (o : Char) (ot new : PyStr) (f : Nat) (c : Char) (t : PyStr)
    (h : (o :: ot).isPrefixOf (c :: t) = true) :
    replaceLoop (o :: ot) new (f + 1) (c :: t) =
      new ++ replaceLoop (o :: ot) new f ((c :: t).drop (o :: ot).length) := by
  simp [replaceLoop, h]

/-- The scan passes unchanged over a region containing no match start,
consuming exactly `w.length` fuel. -/
theorem replaceLoop_append_clean (old new : PyStr) :
    ∀ (w : PyStr) (f : Nat) (r : PyStr),
    (∀ i, i < w.length → old.isPrefixOf ((w ++ r).drop i) = false) →
    replaceLoop old new (w.length + f) (w ++ r) = w ++ replaceLoop old new f r := by
  intro w
  induction w with
  | nil => intro f r _; simp
  | cons c t ih =>
    intro f r h
    have h0 := h 0 (by simp)
    simp only [List.drop_zero, List.cons_append] at h0
    have hfuel : (c :: t).length + f = (t.length + f) + 1 := by
      simp [List.length_cons]; omega
    rw [hfuel, List.cons_append, replaceLoop_cons_no_match old new (t.length + f) c (t ++ r) h0]
    have ht : ∀ i, i < t.length → old.isPrefixOf ((t ++ r).drop i) = false := by
      intro i hi
      have := h (i + 1) (by simp; omega)
      simpa [List.cons_append] using this
    rw [ih f r ht]
    rfl

/-- At a match the scan emits `new` and continues after the pattern. -/
theorem replaceLoop_head_match (o : Char) (ot new : PyStr) (f : Nat) (r : PyStr) :
    replaceLoop (o :: ot) new (f + 1) ((o :: ot) ++ r) = new ++ replaceLoop (o :: ot) new f r := by
  have hpre : (o :: ot).isPrefixOf (o :: (ot ++ r)) = true := by
    simp [isPrefixOf_append_self (o :: ot) r]
  rw [List.cons_append, replaceLoop_cons_match o ot new f o (ot ++ r) hpre]
  have hdrop : ((o :: (ot ++ r)).drop (o :: ot).length) = r := by
    simp [List.drop_left (o :: ot) r]
  rw [hdrop]

theorem pyReplace_fenceJ (s new : PyStr) :
    pyReplace s fenceJ new = replaceLoop fenceJ new s.length s := rfl

theorem pyReplace_fenceT (s new : PyStr) :
    pyReplace s fenceT new = replaceLoop fenceT new s.length s := rfl

theorem replaceLoop_fenceJ_head (new : PyStr) (f : Nat) (r : PyStr) :
    replaceLoop fenceJ new (f + 1) (fenceJ ++ r) = new ++ replaceLoop fenceJ new f r :=
  replaceLoop_head_match '\x60' ('\x60' :: '\x60' :: 'j' :: 's' :: 'o' :: 'n' :: []) new f r

theorem replaceLoop_fenceT_head (new : PyStr) (f : Nat) (r : PyStr) :
    replaceLoop fenceT new (f + 1) (fenceT ++ r) = new ++ replaceLoop fenceT new f r :=
  replaceLoop_head_match '\x60' ('\x60' :: '\x60' :: []) new f r

/-- Whitespace characters are neither a backtick nor `j`. -/
theorem pySpace_ne {c : Char} (h : isPySpace c = true) : c ≠ '\x60' ∧ c ≠ 'j' := by
  simp only [isPySpace, decide_eq_true_eq] at h
  rcases h with h | h | h | h | h | h <;> subst h <;> exact ⟨by decide, by decide⟩

/-- `"```json"` matches at no position of `"```" ++ whitespace`. -/
theorem no_fenceJ_in_tail (w2 : PyStr) (hw2 : ∀ c ∈ w2, isPySpace c = true) :
    ∀ i, fenceJ.isPrefixOf ((fenceT ++ w2).drop i) = false := by
  intro i
  rcases i with _ | _ | _ | i
  · cases w2 with
    | nil => rfl
    | cons d ds =>
      have hd : ('j' == d) = false :=
        beq_eq_false_iff_ne.mpr (fun h => (pySpace_ne (hw2 d (by simp))).2 h.symm)
      simp [fenceJ, fenceT, List.isPrefixOf, hd]
  · cases w2 with
    | nil => rfl
    | cons d ds =>
      have hd : ('\x60' == d) = false :=
        beq_eq_false_iff_ne.mpr (fun h => (pySpace_ne (hw2 d (by simp))).1 h.symm)
      simp [fenceJ, fenceT, List.isPrefixOf, hd]
  · cases w2 with
    | nil => rfl
    | cons d ds =>
      have hd : ('\x60' == d) = false :=
        beq_eq_false_iff_ne.mpr (fun h => (pySpace_ne (hw2 d (by simp))).1 h.symm)
      simp [fenceJ, fenceT, List.isPrefixOf, hd]
  · rw [show (fenceT ++ w2).drop (i + 3) = w2.drop i from by simp [fenceT]]
    exact prefix_false_head '\x60' _ w2
      (fun c hc => (pySpace_ne (hw2 c hc)).1) i

/-- `dropWhile` over a fully-satisfying prefix skips it. -/
theorem dropWhile_append_all (p : Char → Bool) (w r : PyStr) (hw : ∀ c ∈ w, p c = true) :
    (w ++ r).dropWhile p = r.dropWhile p := by
  induction w with
  | nil => rfl
  | cons c t ih =>
    rw [List.cons_append, List.dropWhile_cons]
    simp only [hw c (by simp), if_true]
    exact ih (fun c hc => hw c (by simp [hc]))

/-- `dropWhile` stops inside `s` when something of `s` survives. -/
theorem dropWhile_append_of_ne_nil (p : Char → Bool) (s r : PyStr)
    (h : s.dropWhile p ≠ []) : (s ++ r).dropWhile p = s.dropWhile p ++ r := by
  induction s with
  | nil => simp at h
  | cons c t ih =>
    simp only [List.cons_append, List.dropWhile_cons] at h ⊢
    by_cases hc : p c
    · simp only [hc, if_true] at h ⊢
      exact ih h
    · simp only [hc, Bool.false_eq_true, if_false] at h ⊢
      rfl

/-- Surrounding whitespace does not change `str.strip()`. -/
theorem pyStrip_sandwich (w1 x w2 : PyStr)
    (h1 : ∀ c ∈ w1, isPySpace c = true) (h2 : ∀ c ∈ w2, isPySpace c = true) :
    pyStrip (w1 ++ x ++ w2) = pyStrip x := by
  unfold pyStrip
  rw [List.append_assoc, dropWhile_append_all _ w1 _ h1]
  cases he : x.dropWhile isPySpace with
  | nil =>
    have hx : ∀ c ∈ x, isPySpace c = true := by
      have := List.dropWhile_eq_nil_iff.mp he
      simpa using this
    have hw2nil : w2.dropWhile isPySpace = [] :=
      List.dropWhile_eq_nil_iff.mpr (by simpa using h2)
    rw [dropWhile_append_all _ x _ hx, hw2nil]
  | cons c t =>
    rw [dropWhile_append_of_ne_nil _ x w2 (by simp [he]), he]
    rw [List.reverse_append]
    rw [dropWhile_append_all _ w2.reverse _ (fun c hc => h2 c (List.mem_reverse.mp hc))]

/-- A head that is not whitespace survives `str.strip()` as the head. -/
theorem pyStrip_cons_head (c : Char) (t : PyStr) (hc : isPySpace c = false) :
    ∃ t', pyStrip (c :: t) = c :: t' := by
  unfold pyStrip
  rw [List.dropWhile_cons]
  simp only [hc, Bool.false_eq_true, if_false]
  rw [show (c :: t).reverse = t.reverse ++ [c] from by simp]
  cases hdt : t.reverse.dropWhile isPySpace with
  | nil =>
    rw [dropWhile_append_all _ _ _ (by simpa using List.dropWhile_eq_nil_iff.mp hdt)]
    exact ⟨[], by simp [List.dropWhile_cons, hc]⟩
  | cons d ds =>
    rw [dropWhile_append_of_ne_nil _ _ _ (by simp [hdt]), hdt]
    exact ⟨(d :: ds).reverse, by simp⟩

/-- Everything surviving `str.strip()` was in the input. -/
theorem pyStrip_subset (s : PyStr) : ∀ c ∈ pyStrip s, c ∈ s := by
  intro c hc
  unfold pyStrip at hc
  rw [List.mem_reverse] at hc
  have h1 := (List.dropWhile_sublist (l := (s.dropWhile isPySpace).reverse)
    (p := isPySpace)).subset hc
  rw [List.mem_reverse] at h1
  exact (List.dropWhile_sublist (l := s) (p := isPySpace)).subset h1

/-- No JSON value starts with `j` (so `json...` payloads fail to parse). -/
theorem parseValue_j_err (f : Nat) (r : PyStr) (p : Nat) :
    parseValue f ('j' :: r) p = .error ⟨"Expecting value", p⟩ := by
  cases f with
  | zero => rfl
  | succ f' =>
    simp [parseValue, pyStartswith, pys, List.isPrefixOf, parseNumber]

/-- `json.loads` fails on any document starting with `j`. -/
theorem json_loads_j (t : PyStr) : json_loads ('j' :: t) = .error ⟨"Expecting value", 0⟩ := by
  simp only [json_loads, skipWs, isJsonWs]
  rw [if_neg (by decide)]
  rw [parseValue_j_err]

/-- `str.strip()` keeps a backtick-delimited string unchanged. -/
theorem pyStrip_tick_both (v : PyStr) :
    pyStrip ('\x60' :: (v ++ ['\x60'])) = '\x60' :: (v ++ ['\x60']) := by
  unfold pyStrip
  rw [List.dropWhile_cons, if_neg (by decide)]
  have h1 : ('\x60' :: (v ++ ['\x60'])).reverse = '\x60' :: (v.reverse ++ ['\x60']) := by
    simp
  rw [h1, List.dropWhile_cons, if_neg (by decide), ← h1, List.reverse_reverse]

theorem pyStrip_J_s_T (s : PyStr) :
    pyStrip (fenceJ ++ s ++ fenceT) = fenceJ ++ s ++ fenceT := by
  have h : fenceJ ++ s ++ fenceT =
      '\x60' :: ((('\x60' :: '\x60' :: 'j' :: 's' :: 'o' :: 'n' :: []) ++ s ++
        ('\x60' :: '\x60' :: [])) ++ ['\x60']) := by
    simp [fenceJ, fenceT]
  rw [h, pyStrip_tick_both]

theorem pyStrip_T_s_T (s : PyStr) :
    pyStrip (fenceT ++ s ++ fenceT) = fenceT ++ s ++ fenceT := by
  have h : fenceT ++ s ++ fenceT =
      '\x60' :: ((('\x60' :: '\x60' :: []) ++ s ++ ('\x60' :: '\x60' :: [])) ++ ['\x60']) := by
    simp [fenceT]
  rw [h, pyStrip_tick_both]

/-- The `"```json"` check fails on `"```" ++ s ++ "```"` whenever `s` is a
string whose `strip()` parses as JSON (such an `s` cannot begin with
`json`). -/
theorem fenceJ_not_prefix_of_parses (s : PyStr) (d : JsonValue)
    (hd : json_loads (pyStrip s) = .ok d) :
    pyStartswith (fenceT ++ s ++ fenceT) fenceJ = false := by
  have hred : pyStartswith (fenceT ++ s ++ fenceT) fenceJ =
      List.isPrefixOf ('j' :: 's' :: 'o' :: 'n' :: []) (s ++ fenceT) := by
    simp [pyStartswith, fenceT, fenceJ, List.isPrefixOf]
  rw [hred]
  cases s with
  | nil => rfl
  | cons c t =>
    by_cases hc : c = 'j'
    · exfalso
      subst hc
      obtain ⟨t', ht'⟩ := pyStrip_cons_head 'j' t (by decide)
      rw [ht', json_loads_j] at hd
      exact absurd hd (by simp)
    · have hne : ('j' == c) = false := beq_eq_false_iff_ne.mpr (fun h => hc h.symm)
      simp [List.isPrefixOf, List.cons_append, hne]

/-- `unfence` on a `"```json"`-fenced payload with surrounding whitespace:
both replaces strip exactly the fences. -/
theorem unfence_fenced1 (s w1 w2 : PyStr)
    (hw1 : ∀ c ∈ w1, isPySpace c = true) (hw2 : ∀ c ∈ w2, isPySpace c = true)
    (hs : ∀ c ∈ s, c ≠ '\x60') :
    unfence (w1 ++ fenceJ ++ s ++ fenceT ++ w2) = w1 ++ (s ++ w2) := by
  have hsplit : w1 ++ fenceJ ++ s ++ fenceT ++ w2 =
      w1 ++ (fenceJ ++ s ++ fenceT) ++ w2 := by simp [List.append_assoc]
  have hstrip : pyStrip (w1 ++ fenceJ ++ s ++ fenceT ++ w2) = fenceJ ++ s ++ fenceT := by
    rw [hsplit, pyStrip_sandwich _ _ _ hw1 hw2, pyStrip_J_s_T]
  have hc1 : pyStartswith (pyStrip (w1 ++ fenceJ ++ s ++ fenceT ++ w2)) (pys "```json")
      = true := by
    rw [hstrip, show (pys "```json") = fenceJ from rfl, List.append_assoc]
    exact isPrefixOf_append_self fenceJ _
  have hw1t : ∀ c ∈ w1, c ≠ '\x60' := fun c hc => (pySpace_ne (hw1 c hc)).1
  have hw2t : ∀ c ∈ w2, c ≠ '\x60' := fun c hc => (pySpace_ne (hw2 c hc)).1
  -- first replace: remove the leading ```json fence
  have hrep1 : pyReplace (w1 ++ fenceJ ++ s ++ fenceT ++ w2) fenceJ [] =
      w1 ++ (s ++ (fenceT ++ w2)) := by
    rw [pyReplace_fenceJ]
    have hshape : w1 ++ fenceJ ++ s ++ fenceT ++ w2 =
        w1 ++ (fenceJ ++ (s ++ (fenceT ++ w2))) := by simp [List.append_assoc]
    rw [hshape]
    have hlen : (w1 ++ (fenceJ ++ (s ++ (fenceT ++ w2)))).length =
        w1.length + (((s.length + (w2.length + 3 + 6)) + 1)) := by
      simp [fenceJ, fenceT]; omega
    rw [hlen]
    rw [replaceLoop_append_clean fenceJ [] w1 _ _
      (prefix_false_in_append w1 _ '\x60' _ hw1t)]
    rw [replaceLoop_fenceJ_head [] _ _]
    rw [show s.length + (w2.length + 3 + 6) = s.length + (w2.length + 9) from by omega]
    rw [replaceLoop_append_clean fenceJ [] s _ _
      (prefix_false_in_append s _ '\x60' _ hs)]
    rw [replaceLoop_no_occ fenceJ [] _ _ (no_fenceJ_in_tail w2 hw2)]
    simp
  -- second replace: remove the trailing ``` fence
  have hrep2 : pyReplace (w1 ++ (s ++ (fenceT ++ w2))) fenceT [] = w1 ++ (s ++ w2) := by
    rw [pyReplace_fenceT]
    have hshape : w1 ++ (s ++ (fenceT ++ w2)) = (w1 ++ s) ++ (fenceT ++ w2) := by
      simp [List.append_assoc]
    rw [hshape]
    have hws : ∀ c ∈ w1 ++ s, c ≠ '\x60' := by
      intro c hc
      rcases List.mem_append.mp hc with h | h
      · exact hw1t c h
      · exact hs c h
    have hlen : ((w1 ++ s) ++ (fenceT ++ w2)).length =
        (w1 ++ s).length + ((w2.length + 2) + 1) := by
      simp [fenceT]; omega
    rw [hlen]
    rw [replaceLoop_append_clean fenceT [] (w1 ++ s) _ _
      (prefix_false_in_append (w1 ++ s) _ '\x60' _ hws)]
    rw [replaceLoop_fenceT_head [] _ _]
    rw [replaceLoop_no_occ fenceT [] _ _
      (prefix_false_head '\x60' _ w2 hw2t)]
    simp
  rw [unfence, show (pys "```json") = fenceJ from rfl, show (pys "```") = fenceT from rfl]
  rw [show pyStartswith (pyStrip (w1 ++ fenceJ ++ s ++ fenceT ++ w2)) fenceJ = true from hc1]
  rw [if_pos rfl, hrep1, hrep2]

/-- `unfence` on a bare-````` ``` `````-fenced payload with surrounding
whitespace (for payloads whose `strip()` parses as JSON, so the `"```json"`
branch is not taken). -/
theorem unfence_fenced2 (s w1 w2 : PyStr) (d : JsonValue)
    (hw1 : ∀ c ∈ w1, isPySpace c = true) (hw2 : ∀ c ∈ w2, isPySpace c = true)
    (hs : ∀ c ∈ s, c ≠ '\x60')
    (hd : json_loads (pyStrip s) = .ok d) :
    unfence (w1 ++ fenceT ++ s ++ fenceT ++ w2) = w1 ++ (s ++ w2) := by
  have hsplit : w1 ++ fenceT ++ s ++ fenceT ++ w2 =
      w1 ++ (fenceT ++ s ++ fenceT) ++ w2 := by simp [List.append_assoc]
  have hstrip : pyStrip (w1 ++ fenceT ++ s ++ fenceT ++ w2) = fenceT ++ s ++ fenceT := by
    rw [hsplit, pyStrip_sandwich _ _ _ hw1 hw2, pyStrip_T_s_T]
  have hc1 : pyStartswith (pyStrip (w1 ++ fenceT ++ s ++ fenceT ++ w2)) (pys "```json")
      = false := by
    rw [hstrip, show (pys "```json") = fenceJ from rfl]
    exact fenceJ_not_prefix_of_parses s d hd
  have hc2 : pyStartswith (pyStrip (w1 ++ fenceT ++ s ++ fenceT ++ w2)) (pys "```")
      = true := by
    rw [hstrip, show (pys "```") = fenceT from rfl, List.append_assoc]
    exact isPrefixOf_append_self fenceT _
  have hw1t : ∀ c ∈ w1, c ≠ '\x60' := fun c hc => (pySpace_ne (hw1 c hc)).1
  have hw2t : ∀ c ∈ w2, c ≠ '\x60' := fun c hc => (pySpace_ne (hw2 c hc)).1
  have hrep : pyReplace (w1 ++ fenceT ++ s ++ fenceT ++ w2) fenceT [] =
      w1 ++ (s ++ w2) := by
    rw [pyReplace_fenceT]
    have hshape : w1 ++ fenceT ++ s ++ fenceT ++ w2 =
        w1 ++ (fenceT ++ (s ++ (fenceT ++ w2))) := by simp [List.append_assoc]
    rw [hshape]
    have hlen : (w1 ++ (fenceT ++ (s ++ (fenceT ++ w2)))).length =
        w1.length + ((s.length + ((w2.length + 4) + 1)) + 1) := by
      simp [fenceT]; omega
    rw [hlen]
    rw [replaceLoop_append_clean fenceT [] w1 _ _
      (prefix_false_in_append w1 _ '\x60' _ hw1t)]
    rw [replaceLoop_fenceT_head [] _ _]
    rw [replaceLoop_append_clean fenceT [] s _ _
      (prefix_false_in_append s _ '\x60' _ hs)]
    rw [replaceLoop_fenceT_head [] _ _]
    rw [replaceLoop_no_occ fenceT [] _ _ (prefix_false_head '\x60' _ w2 hw2t)]
    simp
  rw [unfence, show (pys "```json") = fenceJ from rfl, show (pys "```") = fenceT from rfl]
  rw [show pyStartswith (pyStrip (w1 ++ fenceT ++ s ++ fenceT ++ w2)) fenceJ = false from hc1]
  rw [show pyStartswith (pyStrip (w1 ++ fenceT ++ s ++ fenceT ++ w2)) fenceT = true from hc2]
  rw [if_neg (by simp), if_pos rfl, hrep]

/-- `unfence` leaves a backtick-free payload unchanged. -/
theorem unfence_no_tick (s : PyStr) (hs : ∀ c ∈ s, c ≠ '\x60') : unfence s = s := by
  have h1 : pyStartswith (pyStrip s) fenceJ = false := by
    cases hps : pyStrip s with
    | nil => rfl
    | cons c t =>
      have hcm : c ∈ s := pyStrip_subset s c (by rw [hps]; exact List.mem_cons_self c t)
      have hne : ('\x60' == c) = false :=
        beq_eq_false_iff_ne.mpr (fun h => hs c hcm h.symm)
      simp [pyStartswith, fenceJ, List.isPrefixOf, hne]
  have h2 : pyStartswith (pyStrip s) fenceT = false := by
    cases hps : pyStrip s with
    | nil => rfl
    | cons c t =>
      have hcm : c ∈ s := pyStrip_subset s c (by rw [hps]; exact List.mem_cons_self c t)
      have hne : ('\x60' == c) = false :=
        beq_eq_false_iff_ne.mpr (fun h => hs c hcm h.symm)
      simp [pyStartswith, fenceT, List.isPrefixOf, hne]
  rw [unfence, show (pys "```json") = fenceJ from rfl, show (pys "```") = fenceT from rfl]
  rw [show pyStartswith (pyStrip s) fenceJ = false from h1,
    show pyStartswith (pyStrip s) fenceT = false from h2]
  rw [if_neg (by simp), if_neg (by simp)]

/-- Claim C4 as stated is false: for the JSON document
`{"a": "x```y"}` — whose string value contains a backtick fence — the fenced
payload unwraps to `{"a": "xy"}` (the inner ```` ``` ```` is deleted by
`str.replace` too), which differs from the unfenced parse. -/
theorem C4_counterexample :
    parse_content (pys "```json\n\x7b\"a\": \"x```y\"\x7d\n```") =
      .ok (.obj [(pys "a", .str (pys "xy"))]) ∧
    json_loads (pys "\x7b\"a\": \"x```y\"\x7d") =
      .ok (.obj [(pys "a", .str (pys "x```y"))]) ∧
    JsonValue.obj [(pys "a", .str (pys "xy"))] ≠
      JsonValue.obj [(pys "a", .str (pys "x```y"))] := by
  refine ⟨rfl, rfl, ?_⟩
  simp [pys]

/-- Claim C4, amended: for every payload `s` free of backticks whose
`strip()` parses as a JSON document `d`, wrapping it in a Markdown code fence
(leading ```` ```json ```` or ```` ``` ```` and trailing ```` ``` ````, with
optional surrounding whitespace) yields, after the gateway's unwrapping step,
the same parsed JSON value `d` as the unfenced payload. -/
theorem C4_fence_stripping_amended (s w1 w2 : PyStr) (d : JsonValue)
    (hw1 : ∀ c ∈ w1, isPySpace c = true) (hw2 : ∀ c ∈ w2, isPySpace c = true)
    (hs : ∀ c ∈ s, c ≠ '\x60')
    (hd : json_loads (pyStrip s) = .ok d) :
    parse_content (w1 ++ pys "```json" ++ s ++ pys "```" ++ w2) = .ok d ∧
    parse_content (w1 ++ pys "```" ++ s ++ pys "```" ++ w2) = .ok d ∧
    parse_content s = .ok d := by
  rw [show (pys "```json") = fenceJ from rfl, show (pys "```") = fenceT from rfl]
  refine ⟨?_, ?_, ?_⟩
  · rw [parse_content, unfence_fenced1 s w1 w2 hw1 hw2 hs]
    rw [show w1 ++ (s ++ w2) = w1 ++ s ++ w2 from (List.append_assoc w1 s w2).symm]
    rw [pyStrip_sandwich w1 s w2 hw1 hw2, hd]
  · rw [parse_content, unfence_fenced2 s w1 w2 d hw1 hw2 hs hd]
    rw [show w1 ++ (s ++ w2) = w1 ++ s ++ w2 from (List.append_assoc w1 s w2).symm]
    rw [pyStrip_sandwich w1 s w2 hw1 hw2, hd]
  · rw [parse_content, unfence_no_tick s hs, hd]

/-- Witness for C4 (amended): the payload `{"a": 1}` fenced both ways with
surrounding whitespace parses to the same value as unfenced. -/
theorem C4_fence_stripping_amended_witness :
    parse_content ((pys " ") ++ pys "```json" ++ (pys "\n\x7b\"a\": 1\x7d\n") ++ pys "```" ++
        (pys " \n")) = .ok (.obj [(pys "a", .int 1)]) ∧
    parse_content ((pys " ") ++ pys "```" ++ (pys "\n\x7b\"a\": 1\x7d\n") ++ pys "```" ++
        (pys " \n")) = .ok (.obj [(pys "a", .int 1)]) ∧
    parse_content (pys "\n\x7b\"a\": 1\x7d\n") = .ok (.obj [(pys "a", .int 1)]) :=
  C4_fence_stripping_amended (pys "\n\x7b\"a\": 1\x7d\n") (pys " ") (pys " \n")
    (.obj [(pys "a", .int 1)])
    (by decide) (by decide) (by decide) rfl
